import Mathlib

/-!
# Verification of `async-scoped` (scoped task spawning for async executors)

Shallow embedding of the repository's two modules:

* `src/spawner.rs` — the backend capability traits (`SpawnerLocal`, `Spawner`,
  `FuncSpawner`, `Blocker`) and the two concrete adapters `AsyncStd` and
  `Tokio`.
* `src/usage.rs` — the four usage entry points `scope`, `scope_and_block`,
  `scope_and_collect`, `scope_and_iterate`.

In the shallow embedding a spawned future is represented by the value it
eventually produces: spawning registers that value as an outstanding task
handle, and driving the result stream yields it.  The `Scope` type itself
(its `create`, `spawn`, `len`, `Stream` and `Drop` implementations) lives in
a module of the repository that is not among the given source files; it is
modelled from the specification, as marked on each such definition.
-/

namespace AsyncScoped

/-- Modelled from the spec: the `Scope` tracker (spec §3, §4.2; the struct's
own module is not among the given source files).  `pending` is the internal
queue of task handles whose completions have not yet been observed; in the
shallow embedding each handle is identified with the output its task will
produce, listed in completion order. -/
structure Scope (T : Type) where
  pending : List T
deriving Repr, DecidableEq

/-- Modelled from the spec: `create()` returns a new, empty Scope (spec §4.2,
no failure mode). -/
def Scope.create {T : Type} : Scope T := ⟨[]⟩

/-- Modelled from the spec: `spawn(task)` registers one task handle with the
Scope (spec §4.2); the handle is identified with the task's eventual output. -/
def Scope.spawn {T : Type} (s : Scope T) (out : T) : Scope T :=
  ⟨s.pending ++ [out]⟩

/-- Modelled from the spec: `len()` is the current count of not-yet-retired
task handles (spec §4.2). -/
def Scope.len {T : Type} (s : Scope T) : Nat := s.pending.length

/-- Models `async_std::task::block_on` applied to the (pure) future value: a
blocking drive of a pure computation returns its value. -/
def block_on {A : Type} (a : A) : A := a

/-- The `while let Some(item) = stream.next().await { proc_outputs.push(item) }`
drain loop of `usage.rs` (lines 64-68 and 100-102): repeatedly takes the next
completed task's output and pushes it onto the accumulator until the result
sequence is exhausted. -/
def drainLoop {T : Type} (acc : List T) : List T → List T
  | [] => acc
  | x :: xs => drainLoop (acc ++ [x]) xs

/-- Modelled from the spec: early release of an undrained Scope (spec §4.2
"Early release") triggers a synchronous, thread-blocking drive of all
remaining task handles to completion before the Scope's storage is released.
Returns the outputs retired by that drive together with the released (empty)
Scope state. -/
def Scope.dropEarly {T : Type} (s : Scope T) : List T × Scope T :=
  (block_on (drainLoop [] s.pending), Scope.create)

/-- Embeds `scope` (usage.rs lines 24-31): creates an empty `Scope`, runs the
caller's closure against it, and returns the (possibly spawned-into) Scope
together with the closure's return value.  The Rust closure mutates the Scope
through `&mut`; here it is passed the state and returns the updated state. -/
def scope {T R : Type} (f : Scope T → Scope T × R) : Scope T × R :=
  let s : Scope T := Scope.create
  let p := f s
  (p.1, p.2)

/-- Embeds `scope_and_block` (usage.rs lines 53-71): creates a scope via
`scope`, then blocks the current thread on the drain loop, collecting every
yielded output into a `Vec`, returned with the closure's output. -/
def scope_and_block {T R : Type} (f : Scope T → Scope T × R) : R × List T :=
  let p := scope f
  let proc_outputs := block_on (drainLoop [] p.1.pending)
  (p.2, proc_outputs)

/-- Embeds `scope_and_collect` (usage.rs lines 91-104): creates a scope via
`scope`, then awaits the stream element-by-element with the same drain loop,
returning the closure's output with the collected `Vec`.  (The returned value
is the result the returned future produces when fully driven.) -/
def scope_and_collect {T R : Type} (f : Scope T → Scope T × R) : R × List T :=
  let p := scope f
  let proc_outputs := drainLoop [] p.1.pending
  (p.2, proc_outputs)

/-- The `futures::StreamExt::for_each(stream, g).await` combinator used by
`scope_and_iterate` (usage.rs line 135): feeds each yielded output through the
callback as it arrives.  The callback's side effects are made explicit as a
state of type `σ` threaded through the calls. -/
def forEach {T σ : Type} (g : σ → T → σ) : σ → List T → σ
  | acc, [] => acc
  | acc, x :: xs => forEach g (g acc x) xs

/-- Embeds `scope_and_iterate` (usage.rs lines 126-138): creates a scope via
`scope`, sends the stream through the caller-supplied callback with
`for_each`, and returns the closure's output.  The Rust function returns only
`block_output`; the callback's accumulated effects (second component) are the
explicit rendering of its side effects. -/
def scope_and_iterate {T R σ : Type} (f : Scope T → Scope T × R)
    (g : σ → T → σ) (init : σ) : R × σ :=
  let p := scope f
  let effects := forEach g init p.1.pending
  (p.2, effects)

/-- A closure that calls `spawn` once for each element of `ts` (in order) on
the scope it is handed, and returns `r`: the canonical closure performing
exactly `ts.length` spawns. -/
def spawnsThen {T R : Type} (ts : List T) (r : R) (s : Scope T) : Scope T × R :=
  (ts.foldl Scope.spawn s, r)

/-! ## Backend adapters (`src/spawner.rs`) -/

/-- Shape of a `FuncSpawner` implementation's `FutureOutput` associated type:
either the callable's plain return type `T`, or `Result<T, JoinError>`. -/
inductive OutputShape : Type
  | plain
  | resultWrapped
deriving Repr, DecidableEq

/-- The two backend adapters of `spawner.rs` that implement the
blocking-function capability `FuncSpawner` (lines 51-58 and 89-96). -/
inductive FuncBackend : Type
  | asyncStd
  | tokio
deriving Repr, DecidableEq

/-- The `FutureOutput` associated type of each adapter's `FuncSpawner`
implementation, read off the source: `AsyncStd` declares
`type FutureOutput = T` (spawner.rs line 52), `Tokio` declares
`type FutureOutput = Result<T, tokio_task::JoinError>` (spawner.rs line 90). -/
def funcSpawnerOutputShape : FuncBackend → OutputShape
  | .asyncStd => .plain
  | .tokio => .resultWrapped

/-- `tokio::task::JoinError`: the failure a Tokio join handle can report,
covering a task that was cancelled/abandoned (e.g. executor shutdown) or that
panicked. -/
inductive JoinError : Type
  | cancelled
  | panicked
deriving Repr, DecidableEq

/-- Models the completion value of the handle returned by `AsyncStd`'s
`spawn_func` (spawner.rs lines 55-57, delegating to
`async_std::task::spawn_blocking`): the handle yields the callable's plain
return value. -/
def asyncStdSpawnFunc {T : Type} (f : Unit → T) : T := f ()

/-- Models the completion value of the handle returned by `Tokio`'s
`spawn_func` (spawner.rs lines 93-95, delegating to
`tokio::task::spawn_blocking`): `Ok` of the callable's return value when it
was carried to completion, `Err` of a `JoinError` when the callable was
abandoned because the executor shut down. -/
def tokioSpawnFunc {T : Type} (f : Unit → T) (shutDown : Bool) :
    Except JoinError T :=
  if shutDown then .error .cancelled else .ok (f ())

/-- Outcome of calling an adapter's `spawn_local`: either the call returns a
handle (identified with the value the handle yields when later polled), or
the call panics instead of returning. -/
inductive CallResult (H : Type) : Type
  | returns (h : H)
  | panics
deriving Repr, DecidableEq

/-- Models `AsyncStd`'s `spawn_local` (spawner.rs lines 41-43): the body is
`unimplemented!()`, so every call panics instead of returning a handle. -/
def asyncStdSpawnLocal {T : Type} (_fut : T) : CallResult T :=
  .panics

/-- Models `Tokio`'s `spawn_local` (spawner.rs lines 78-80, delegating to
`tokio::task::spawn_local`): returns a handle that, when the backend later
polls the task to completion, yields `Ok` of the task's output
(`FutureOutput = Result<T, JoinError>`, spawner.rs line 75). -/
def tokioSpawnLocal {T : Type} (fut : T) : CallResult (Except JoinError T) :=
  .returns (.ok fut)

/-- The flavor of the ambient Tokio runtime, as reported by
`Handle::runtime_flavor()`.  The Rust enum is non-exhaustive; `other` stands
for any flavor besides `CurrentThread` and `MultiThread` (the source's `_`
match arm). -/
inductive RuntimeFlavor : Type
  | currentThread
  | multiThread
  | other
deriving Repr, DecidableEq

/-- Which driver ends up driving the future inside `Tokio`'s `block_on`. -/
inductive Driver : Type
  | currentRuntime
  | freshCurrentThread
deriving Repr, DecidableEq

/-- An unhandled panic raised by the `todo!()` arm. -/
inductive RustPanic : Type
  | todoUnhandled
deriving Repr, DecidableEq

/-- Embeds `Blocker for Tokio`'s `block_on` (spawner.rs lines 99-114): it
matches on the current runtime's flavor — `CurrentThread` drives the future
on the current runtime directly (`rt.block_on(f)`); `MultiThread` calls
`block_in_place` and builds a fresh private current-thread runtime to drive
the future; any other flavor hits the `todo!()` arm and panics.  The result
records which driver ran the future (or the panic). -/
def tokioBlockOn {T : Type} (flavor : RuntimeFlavor) (fut : T) :
    Except RustPanic (Driver × T) :=
  match flavor with
  | .currentThread => .ok (.currentRuntime, fut)
  | .multiThread => .ok (.freshCurrentThread, fut)
  | .other => .error .todoUnhandled

/-- The four usage entry points of `usage.rs`. -/
inductive EntryPoint : Type
  | scopeRaw
  | scopeAndBlock
  | scopeAndCollect
  | scopeAndIterate
deriving Repr, DecidableEq

/-- Whether each entry point's signature in `usage.rs` carries the `unsafe`
keyword: `pub unsafe fn scope` (line 24), `pub fn scope_and_block` (line 53),
`pub async unsafe fn scope_and_collect` (line 91), `pub async unsafe fn
scope_and_iterate` (line 126). -/
def declaredUnsafeFlag : EntryPoint → Bool
  | .scopeRaw => true
  | .scopeAndBlock => false
  | .scopeAndCollect => true
  | .scopeAndIterate => true

/-! ## Basic lemmas -/

/-- The drain loop appends the stream's remaining elements to the
accumulator, in order. -/
theorem drainLoop_eq_append {T : Type} (xs : List T) :
    ∀ acc : List T, drainLoop acc xs = acc ++ xs := by
  induction xs with
  | nil => intro acc; simp [drainLoop]
  | cons x xs ih => intro acc; simp [drainLoop, ih]

/-- Folding `spawn` over a list appends exactly those outputs to the pending
queue. -/
theorem foldl_spawn_pending {T : Type} (ts : List T) :
    ∀ s : Scope T, (ts.foldl Scope.spawn s).pending = s.pending ++ ts := by
  induction ts with
  | nil => intro s; simp
  | cons t ts ih => intro s; simp [ih, Scope.spawn]

/-- `forEach` is a left fold of the callback over the yielded outputs. -/
theorem forEach_eq_foldl {T σ : Type} (g : σ → T → σ) (xs : List T) :
    ∀ acc : σ, forEach g acc xs = xs.foldl g acc := by
  induction xs with
  | nil => intro acc; simp [forEach]
  | cons x xs ih => intro acc; simp [forEach, ih]

/-! ## Claims -/

/-- Claim C1: releasing a Scope that still holds outstanding task handles
synchronously drives every remaining task handle to completion — the
blocking drive performed before control returns retires exactly the
outstanding handles (their outputs are all produced), and on return the
released Scope holds no outstanding handle. -/
theorem C1_early_release_drains_all {T : Type} (s : Scope T) :
    (Scope.dropEarly s).1 = s.pending ∧ (Scope.dropEarly s).2.pending = [] := by
  constructor
  · simp [Scope.dropEarly, block_on, drainLoop_eq_append]
  · rfl

/-- Claim C2: for every list of `N ≥ 0` task outputs and every closure that
spawns exactly those `N` tasks inside one Scope, `scope_and_block` returns a
collection containing exactly `N` output elements, one per spawned task. -/
theorem C2_block_collects_one_per_task {T R : Type} (ts : List T) (r : R) :
    (scope_and_block (spawnsThen ts r)).2.length = ts.length := by
  simp [scope_and_block, scope, spawnsThen, Scope.create, block_on,
    drainLoop_eq_append, foldl_spawn_pending]

/-- Claim C3 (counterexample): the claim asserts every adapter implementing
the blocking-function capability wraps the callable's return value in a
result; but the `AsyncStd` adapter's `FuncSpawner` declares its handle's
completion type as the plain return type `T`, not a result. -/
theorem C3_counterexample :
    funcSpawnerOutputShape FuncBackend.asyncStd ≠ OutputShape.resultWrapped := by
  decide

/-- Claim C3 (amended): the `Tokio` adapter's `spawn_func` handle completes
with a result wrapping the callable's return value and distinguishing
completion (`Ok` of the value) from abandonment at executor shutdown (`Err`
of a `JoinError`), while the `AsyncStd` adapter's `spawn_func` handle
completes with the callable's plain, unwrapped return value. -/
theorem C3_func_spawner_outputs {T : Type} (f : Unit → T) :
    funcSpawnerOutputShape FuncBackend.tokio = OutputShape.resultWrapped ∧
    tokioSpawnFunc f false = .ok (f ()) ∧
    tokioSpawnFunc f true = .error JoinError.cancelled ∧
    funcSpawnerOutputShape FuncBackend.asyncStd = OutputShape.plain ∧
    asyncStdSpawnFunc f = f () := by
  refine ⟨rfl, rfl, rfl, rfl, rfl⟩

/-- Claim C4 (counterexample): the claim asserts every adapter implementing
the local-spawn capability returns a handle without panicking; but the
`AsyncStd` adapter's `spawn_local` body is `unimplemented!()`, so the call
panics instead of returning a handle — shown here on the concrete task with
output `42`. -/
theorem C4_counterexample :
    asyncStdSpawnLocal (42 : Nat) = CallResult.panics := by
  decide

/-- Claim C4 (amended): the `Tokio` adapter's `spawn_local` returns (without
panicking) a handle that yields `Ok` of the task's output when the backend
later polls the task to completion, while the `AsyncStd` adapter's
`spawn_local` is unimplemented and panics on every call. -/
theorem C4_spawn_local_behavior {T : Type} (fut : T) :
    tokioSpawnLocal fut = CallResult.returns (.ok fut) ∧
    asyncStdSpawnLocal fut = CallResult.panics := by
  exact ⟨rfl, rfl⟩

/-- Claim C6: of the four usage entry points, exactly `scope_and_block` is a
safe function — an entry point's signature lacks the `unsafe` keyword iff it
is the block-and-collect entry point. -/
theorem C6_only_block_is_safe (e : EntryPoint) :
    declaredUnsafeFlag e = false ↔ e = EntryPoint.scopeAndBlock := by
  cases e <;> simp [declaredUnsafeFlag]

/-- Claim C7: for every closure that spawns zero tasks, each of the four
entry points completes normally: `scope` hands back an empty Scope with the
closure's return value, `scope_and_block` and `scope_and_collect` yield an
empty output collection with the closure's return value unchanged, and
`scope_and_iterate` performs no callback invocation (the callback state is
untouched) and returns the closure's return value. -/
theorem C7_zero_tasks {T R σ : Type} (r : R) (g : σ → T → σ) (init : σ) :
    (scope (T := T) (fun s => (s, r))).1.pending = [] ∧
    (scope (T := T) (fun s => (s, r))).2 = r ∧
    scope_and_block (T := T) (fun s => (s, r)) = (r, []) ∧
    scope_and_collect (T := T) (fun s => (s, r)) = (r, []) ∧
    scope_and_iterate (fun s => (s, r)) g init = (r, init) := by
  refine ⟨rfl, rfl, rfl, rfl, rfl⟩

/-- Claim C8: for every closure (spawning the tasks `ts` and returning `r`)
and every caller-supplied callback, `scope_and_iterate` feeds every yielded
task output through the callback as it arrives — the callback's final state
is the left fold of the callback over all yielded outputs in completion
order — and then returns exactly the closure's return value. -/
theorem C8_iterate_feeds_all_outputs {T R σ : Type} (ts : List T) (r : R)
    (g : σ → T → σ) (init : σ) :
    (scope_and_iterate (spawnsThen ts r) g init).1 = r ∧
    (scope_and_iterate (spawnsThen ts r) g init).2 = ts.foldl g init := by
  constructor
  · rfl
  · simp [scope_and_iterate, scope, spawnsThen, Scope.create,
      forEach_eq_foldl, foldl_spawn_pending]

/-- Claim C9: for every closure, `scope_and_block` produces exactly the same
(closure-return-value, collected-outputs) pair as blocking the current
thread on the result of `scope_and_collect` applied to that closure: the
blocking entry point is the async-collect entry point driven under a
`block_on`. -/
theorem C9_block_refines_collect {T R : Type} (f : Scope T → Scope T × R) :
    scope_and_block f = block_on (scope_and_collect f) := by
  rfl

/-- Claim C10: the `Tokio` adapter's `block_on` is total exactly on the
current-thread and multi-thread runtime flavors — it drives the given future
to completion for those two flavors and reaches the unhandled panicking
`todo!()` branch for every other flavor. -/
theorem C10_tokio_block_on_flavors {T : Type} (flavor : RuntimeFlavor) (fut : T) :
    ((tokioBlockOn flavor fut).isOk ↔
      (flavor = RuntimeFlavor.currentThread ∨ flavor = RuntimeFlavor.multiThread)) ∧
    tokioBlockOn RuntimeFlavor.currentThread fut = .ok (Driver.currentRuntime, fut) ∧
    tokioBlockOn RuntimeFlavor.multiThread fut = .ok (Driver.freshCurrentThread, fut) ∧
    tokioBlockOn RuntimeFlavor.other fut = .error RustPanic.todoUnhandled := by
  refine ⟨?_, rfl, rfl, rfl⟩
  cases flavor <;> simp [tokioBlockOn, Except.isOk, Except.toBool]

end AsyncScoped
